import Mathlib

/-!
Verification of parallelism_tutorial.py from the pytorch-doc-zh repository.
The file embeds the tutorial function data_parallel and the two illustrative
module classes DataParallelModel and DistributedModel. The four framework
primitives (nn.parallel.replicate, nn.parallel.scatter,
nn.parallel.parallel_apply, nn.parallel.gather), the direct module call, and
the layer forward functions are external to the repository, so they are kept
abstract as parameters of the embedding.
-/

/-- External framework primitives that data_parallel composes. The field run
embeds the direct call module(input); the remaining fields embed
nn.parallel.replicate, nn.parallel.scatter, nn.parallel.parallel_apply and
nn.parallel.gather. M is the module type, I the input type, O the output
type and D the device identifier type. -/
structure ParallelPrims (M I O D : Type) where
  run : M → I → O
  replicate : M → List D → List M
  scatter : I → List D → List I
  parallel_apply : List M → List I → List O
  gather : List O → D → O

/-- Embedding of the tutorial function
data_parallel(module, input, device_ids, output_device=None): an empty device
list short-circuits to a direct module call; otherwise output_device defaults
to device_ids[0], the module is replicated over the device list, the input is
scattered over the device list, the replica list is truncated to the number of
shards, the shards are applied in parallel, and the outputs are gathered onto
the output device. -/
def data_parallel {M I O D : Type} (P : ParallelPrims M I O D)
    (module : M) (input : I) (device_ids : List D) (output_device : Option D) : O :=
  match device_ids with
  | [] => P.run module input
  | d :: ds =>
      let od := output_device.getD d
      let replicas := P.replicate module (d :: ds)
      let inputs := P.scatter input (d :: ds)
      let replicas := replicas.take inputs.length
      let outputs := P.parallel_apply replicas inputs
      P.gather outputs od

/-- Modelled from the spec: the forward behaviour of the framework's single
built-in data-parallel wrapper class (nn.DataParallel), whose implementation
is external to this repository. Following the spec's description, invoking the
wrapped module partitions the batch of inputs across the devices, runs a model
replica on each partition, and merges the results onto one output device
(defaulting to the first device); with no devices it is a direct call. -/
def nnDataParallelForward {M I O D : Type} (P : ParallelPrims M I O D)
    (module : M) (input : I) (device_ids : List D) (output_device : Option D) : O :=
  match device_ids with
  | [] => P.run module input
  | d :: ds =>
      let inputs := P.scatter input (d :: ds)
      let replicas := (P.replicate module (d :: ds)).take inputs.length
      let outputs := P.parallel_apply replicas inputs
      P.gather outputs (output_device.getD d)

/-- External framework primitives with explicit exception behaviour: each call
either returns a value or raises an error of type E, embedding Python
exception propagation through the wrapper. -/
structure ParallelPrimsE (M I O D E : Type) where
  run : M → I → Except E O
  replicate : M → List D → Except E (List M)
  scatter : I → List D → Except E (List I)
  parallel_apply : List M → List I → Except E (List O)
  gather : List O → D → Except E O

/-- Embedding of data_parallel over exception-aware primitives: the call sites
are sequenced exactly as in the source and the body contains no handler, so an
error raised at any stage aborts the remaining stages and becomes the overall
result. -/
def data_parallelE {M I O D E : Type} (P : ParallelPrimsE M I O D E)
    (module : M) (input : I) (device_ids : List D) (output_device : Option D) :
    Except E O :=
  match device_ids with
  | [] => P.run module input
  | d :: ds =>
      let od := output_device.getD d
      Except.bind (P.replicate module (d :: ds)) fun replicas =>
      Except.bind (P.scatter input (d :: ds)) fun inputs =>
      Except.bind (P.parallel_apply (replicas.take inputs.length) inputs) fun outputs =>
      P.gather outputs od

/-- Abstract syntax of the framework modules that the tutorial instantiates:
linear layers, embedding layers, a module wrapped in nn.DataParallel, and a
module moved onto a CUDA device by calling .cuda(n) on it. -/
inductive NNModule : Type where
  | linear (inFeatures outFeatures : Nat)
  | embedding (numEmbeddings embeddingDim : Nat)
  | dataParallel (inner : NNModule)
  | cudaModule (device : Nat) (inner : NNModule)

/-- True exactly on modules wrapped in the nn.DataParallel wrapper. -/
def NNModule.isDataParallel : NNModule → Bool
  | .dataParallel _ => true
  | _ => false

/-- External semantics of the framework the tutorial calls into: the forward
functions of linear and embedding layers, the dispatch performed by the
nn.DataParallel wrapper around the forward function of its inner module, the
application of a module living on a CUDA device, and the tensor transfer
x.cuda(n). All fields are opaque parameters: the tutorial only composes
them. -/
structure Framework (T : Type) where
  linearForward : Nat → Nat → T → T
  embeddingForward : Nat → Nat → T → T
  dpDispatch : (T → T) → T → T
  cudaForward : Nat → (T → T) → T → T
  tensorCuda : Nat → T → T

/-- Forward pass of an abstract module under framework semantics F. -/
def NNModule.forward {T : Type} (F : Framework T) : NNModule → T → T
  | .linear i o, x => F.linearForward i o x
  | .embedding n d, x => F.embeddingForward n d x
  | .dataParallel m, x => F.dpDispatch (NNModule.forward F m) x
  | .cudaModule dev m, x => F.cudaForward dev (NNModule.forward F m) x

/-- Attributes of the tutorial class DataParallelModel. -/
structure DataParallelModel where
  block1 : NNModule
  block2 : NNModule
  block3 : NNModule

/-- Embedding of DataParallelModel constructor: block1 = nn.Linear(10, 20);
block2 = nn.Linear(20, 20) and then rebound to nn.DataParallel(block2);
block3 = nn.Linear(20, 20). -/
def DataParallelModel.init : DataParallelModel :=
  let block1 := NNModule.linear 10 20
  let block2 := NNModule.linear 20 20
  let block2 := NNModule.dataParallel block2
  let block3 := NNModule.linear 20 20
  { block1 := block1, block2 := block2, block3 := block3 }

/-- Embedding of DataParallelModel.forward: x = block1(x); x = block2(x);
x = block3(x); return x. -/
def DataParallelModel.forward {T : Type} (F : Framework T)
    (self : DataParallelModel) (x : T) : T :=
  let x := self.block1.forward F x
  let x := self.block2.forward F x
  let x := self.block3.forward F x
  x

/-- Attributes of the tutorial class DistributedModel. -/
structure DistributedModel where
  embedding : NNModule
  rnn : NNModule

/-- Embedding of DistributedModel constructor: the embedding attribute is
nn.Embedding(1000, 10) left in place on the CPU, and the rnn attribute is
nn.Linear(10, 10).cuda(0), namely a linear layer moved to CUDA device 0 at
construction. -/
def DistributedModel.init : DistributedModel :=
  { embedding := NNModule.embedding 1000 10
  , rnn := NNModule.cudaModule 0 (NNModule.linear 10 10) }

/-- Embedding of DistributedModel.forward: x = embedding(x) on the CPU; then
x = x.cuda(0) transfers the intermediate tensor to CUDA device 0; then
x = rnn(x) runs on that device. -/
def DistributedModel.forward {T : Type} (F : Framework T)
    (self : DistributedModel) (x : T) : T :=
  let x := self.embedding.forward F x
  let x := F.tensorCuda 0 x
  let x := self.rnn.forward F x
  x

/-- Concrete instantiation of the primitives over Nat in which scatter yields
a single shard regardless of the device list while replicate yields one
replica per device. parallel_apply returns exactly the replica list it was
handed and gather returns how many outputs it merges, so the number of
replicas actually applied is observable in the final result. -/
def truncPrims : ParallelPrims Nat Nat Nat Nat where
  run := fun _ input => input
  replicate := fun module device_ids => device_ids.map (fun _ => module)
  scatter := fun input _ => [input]
  parallel_apply := fun replicas _ => replicas
  gather := fun outputs _ => outputs.length

/-- Concrete instantiation of the primitives over Nat in which scatter yields
one shard per device and replicate yields one replica per device. -/
def fullPrims : ParallelPrims Nat Nat Nat Nat where
  run := fun _ input => input
  replicate := fun module device_ids => device_ids.map (fun _ => module)
  scatter := fun input device_ids => device_ids.map (fun _ => input)
  parallel_apply := fun replicas _ => replicas
  gather := fun outputs _ => outputs.length

/-- The pack fullPrims with a different direct-call behaviour; its parallel
primitives are unchanged. -/
def fullPrimsAltRun : ParallelPrims Nat Nat Nat Nat :=
  { fullPrims with run := fun _ _ => 999 }

/-- Concrete exception-raising instantiation over Nat whose replicate call
raises error 3 and whose direct call raises error 11. -/
def errPrims : ParallelPrimsE Nat Nat Nat Nat Nat where
  run := fun _ _ => Except.error 11
  replicate := fun _ _ => Except.error 3
  scatter := fun input _ => Except.ok [input]
  parallel_apply := fun _ inputs => Except.ok inputs
  gather := fun outputs _ => Except.ok outputs.length

/-- Claim C1: for every module, input and non-empty device list, data_parallel
returns exactly the gather, onto the single output device (the supplied one,
defaulting to the first device), of the parallel application of the truncated
replicate output to the scatter output: the fixed sequence replicate, scatter,
parallel_apply, gather with no other computation besides replica
truncation. -/
theorem data_parallel_fixed_sequence {M I O D : Type} (P : ParallelPrims M I O D)
    (module : M) (input : I) (d : D) (ds : List D) (output_device : Option D) :
    data_parallel P module input (d :: ds) output_device =
      P.gather
        (P.parallel_apply
          ((P.replicate module (d :: ds)).take (P.scatter input (d :: ds)).length)
          (P.scatter input (d :: ds)))
        (output_device.getD d) := rfl

/-- Claim C2: for every module and input, data_parallel on an empty device
list returns the unmodified result of the direct module call; since the
equation holds for every primitive pack and its right-hand side mentions only
the direct call, none of the four parallel primitives influences the
result. -/
theorem data_parallel_empty_devices {M I O D : Type} (P : ParallelPrims M I O D)
    (module : M) (input : I) (output_device : Option D) :
    data_parallel P module input [] output_device = P.run module input := rfl

/-- Claim C3 counterexample: with devices [1, 2] the replicate output has two
replicas, but scatter yields a single shard, so the replica list handed to
parallel_apply is a strict prefix of the replicate output; the result 1 of
data_parallel counts the replicas that were actually applied, not 2. Hence
not every replica produced by replicate is applied to a shard. -/
theorem data_parallel_drops_replica :
    (truncPrims.replicate 0 [1, 2]).length = 2 ∧
      (truncPrims.replicate 0 [1, 2]).take (truncPrims.scatter 0 [1, 2]).length ≠
        truncPrims.replicate 0 [1, 2] ∧
      data_parallel truncPrims 0 0 [1, 2] none = 1 := by decide

/-- Claim C3 (amended): data_parallel hands the full device list to replicate,
and whenever scatter yields at least as many shards as replicate yields
replicas, the whole replicate output is passed to parallel_apply together with
the shard list, so every replica is applied to its own shard. -/
theorem data_parallel_all_replicas_applied {M I O D : Type} (P : ParallelPrims M I O D)
    (module : M) (input : I) (d : D) (ds : List D) (output_device : Option D)
    (h : (P.replicate module (d :: ds)).length ≤ (P.scatter input (d :: ds)).length) :
    data_parallel P module input (d :: ds) output_device =
      P.gather
        (P.parallel_apply (P.replicate module (d :: ds)) (P.scatter input (d :: ds)))
        (output_device.getD d) := by
  have ht : (P.replicate module (d :: ds)).take (P.scatter input (d :: ds)).length
      = P.replicate module (d :: ds) := List.take_of_length_le h
  calc data_parallel P module input (d :: ds) output_device
      = P.gather
          (P.parallel_apply
            ((P.replicate module (d :: ds)).take (P.scatter input (d :: ds)).length)
            (P.scatter input (d :: ds)))
          (output_device.getD d) := rfl
    _ = P.gather
          (P.parallel_apply (P.replicate module (d :: ds)) (P.scatter input (d :: ds)))
          (output_device.getD d) := by rw [ht]

/-- Claim C3 (amended) witness at the concrete pack fullPrims. -/
theorem data_parallel_all_replicas_applied_witness :
    data_parallel fullPrims 5 7 [1, 2] none =
      fullPrims.gather
        (fullPrims.parallel_apply (fullPrims.replicate 5 [1, 2])
          (fullPrims.scatter 7 [1, 2])) 1 :=
  data_parallel_all_replicas_applied fullPrims 5 7 1 [2] none (by decide)

/-- Claim C4: data_parallel contains no handler of its own: an error raised by
the direct module call (empty device list), by replicate, by scatter, by
parallel_apply or by gather becomes the overall result unchanged, and the
stages after the failing one are never consulted. -/
theorem data_parallelE_error_propagation {M I O D E : Type} (P : ParallelPrimsE M I O D E)
    (module : M) (input : I) (d : D) (ds : List D) (output_device : Option D) (e : E) :
    (P.run module input = Except.error e →
        data_parallelE P module input [] output_device = Except.error e) ∧
    (P.replicate module (d :: ds) = Except.error e →
        data_parallelE P module input (d :: ds) output_device = Except.error e) ∧
    (∀ replicas, P.replicate module (d :: ds) = Except.ok replicas →
        P.scatter input (d :: ds) = Except.error e →
        data_parallelE P module input (d :: ds) output_device = Except.error e) ∧
    (∀ replicas inputs, P.replicate module (d :: ds) = Except.ok replicas →
        P.scatter input (d :: ds) = Except.ok inputs →
        P.parallel_apply (replicas.take inputs.length) inputs = Except.error e →
        data_parallelE P module input (d :: ds) output_device = Except.error e) ∧
    (∀ replicas inputs outputs, P.replicate module (d :: ds) = Except.ok replicas →
        P.scatter input (d :: ds) = Except.ok inputs →
        P.parallel_apply (replicas.take inputs.length) inputs = Except.ok outputs →
        P.gather outputs (output_device.getD d) = Except.error e →
        data_parallelE P module input (d :: ds) output_device = Except.error e) := by
  refine ⟨fun h => h, fun h => ?_, fun replicas h1 h2 => ?_,
    fun replicas inputs h1 h2 h3 => ?_, fun replicas inputs outputs h1 h2 h3 h4 => ?_⟩
  · show Except.bind (P.replicate module (d :: ds)) _ = Except.error e
    rw [h]
    rfl
  · show Except.bind (P.replicate module (d :: ds)) _ = Except.error e
    rw [h1]
    show Except.bind (P.scatter input (d :: ds)) _ = Except.error e
    rw [h2]
    rfl
  · show Except.bind (P.replicate module (d :: ds)) _ = Except.error e
    rw [h1]
    show Except.bind (P.scatter input (d :: ds)) _ = Except.error e
    rw [h2]
    show Except.bind (P.parallel_apply (replicas.take inputs.length) inputs) _ =
      Except.error e
    rw [h3]
    rfl
  · show Except.bind (P.replicate module (d :: ds)) _ = Except.error e
    rw [h1]
    show Except.bind (P.scatter input (d :: ds)) _ = Except.error e
    rw [h2]
    show Except.bind (P.parallel_apply (replicas.take inputs.length) inputs) _ =
      Except.error e
    rw [h3]
    show P.gather outputs (output_device.getD d) = Except.error e
    exact h4

/-- Claim C4 witness: at the concrete pack errPrims, whose replicate raises
error 3, data_parallel on device list [1] returns that error unchanged. -/
theorem data_parallelE_error_propagation_witness :
    data_parallelE errPrims 0 0 [1] none = Except.error 3 :=
  (data_parallelE_error_propagation errPrims 0 0 1 [] none 3).2.1 rfl

/-- Claim C5: for every module, input and device list, data_parallel computes
the same result as the forward pass of the built-in wrapper class, modelled
from the spec over the same abstract primitives. -/
theorem data_parallel_matches_builtin {M I O D : Type} (P : ParallelPrims M I O D)
    (module : M) (input : I) (device_ids : List D) (output_device : Option D) :
    data_parallel P module input device_ids output_device =
      nnDataParallelForward P module input device_ids output_device := by
  cases device_ids <;> rfl

/-- Claim C6: DataParallelModel wraps exactly one block, block2, in the
nn.DataParallel wrapper, while block1 and block3 are plain linear layers, and
for every input its forward pass is block3(block2(block1(x))). -/
theorem DataParallelModel_structure :
    DataParallelModel.init.block1 = NNModule.linear 10 20 ∧
    DataParallelModel.init.block2 = NNModule.dataParallel (NNModule.linear 20 20) ∧
    DataParallelModel.init.block3 = NNModule.linear 20 20 ∧
    ([DataParallelModel.init.block1, DataParallelModel.init.block2,
        DataParallelModel.init.block3].countP NNModule.isDataParallel) = 1 ∧
    ∀ (T : Type) (F : Framework T) (x : T),
      DataParallelModel.forward F DataParallelModel.init x =
        DataParallelModel.init.block3.forward F
          (DataParallelModel.init.block2.forward F
            (DataParallelModel.init.block1.forward F x)) :=
  ⟨rfl, rfl, rfl, rfl, fun _ _ _ => rfl⟩

/-- Claim C7: DistributedModel keeps its embedding layer unplaced (it stays on
the CPU) while its rnn layer is moved to CUDA device 0 at construction, and
for every input its forward pass applies the embedding, then transfers the
intermediate tensor to CUDA device 0, then applies the rnn, in that order. -/
theorem DistributedModel_partition :
    DistributedModel.init.embedding = NNModule.embedding 1000 10 ∧
    DistributedModel.init.rnn = NNModule.cudaModule 0 (NNModule.linear 10 10) ∧
    ∀ (T : Type) (F : Framework T) (x : T),
      DistributedModel.forward F DistributedModel.init x =
        DistributedModel.init.rnn.forward F
          (F.tensorCuda 0 (DistributedModel.init.embedding.forward F x)) :=
  ⟨rfl, rfl, fun _ _ _ => rfl⟩

/-- Claim C8: data_parallel passes the caller's device list through unchanged:
its result depends on replicate and scatter only through their values at
exactly the supplied list, so any two primitive packs that agree there (and on
parallel_apply and gather) give the same result; no filtering, reordering or
modification of the list can be observed. -/
theorem data_parallel_device_list_passthrough {M I O D : Type}
    (P Q : ParallelPrims M I O D) (module : M) (input : I) (d : D) (ds : List D)
    (output_device : Option D)
    (hrep : P.replicate module (d :: ds) = Q.replicate module (d :: ds))
    (hsc : P.scatter input (d :: ds) = Q.scatter input (d :: ds))
    (hpa : P.parallel_apply = Q.parallel_apply)
    (hg : P.gather = Q.gather) :
    data_parallel P module input (d :: ds) output_device =
      data_parallel Q module input (d :: ds) output_device := by
  show P.gather
      (P.parallel_apply
        ((P.replicate module (d :: ds)).take (P.scatter input (d :: ds)).length)
        (P.scatter input (d :: ds)))
      (output_device.getD d) = _
  rw [hrep, hsc, hpa, hg]
  rfl

/-- Claim C8 witness at two concrete packs that differ in their direct-call
behaviour but agree on the parallel primitives. -/
theorem data_parallel_device_list_passthrough_witness :
    data_parallel fullPrims 5 7 [1, 2] none =
      data_parallel fullPrimsAltRun 5 7 [1, 2] none :=
  data_parallel_device_list_passthrough fullPrims fullPrimsAltRun 5 7 1 [2] none
    rfl rfl rfl rfl

/-- Claim C9: with a non-empty device list and output_device omitted (None),
data_parallel gathers the outputs onto the first device of the list; the call
with None equals the call with the first device made explicit. -/
theorem data_parallel_default_output_device {M I O D : Type} (P : ParallelPrims M I O D)
    (module : M) (input : I) (d : D) (ds : List D) :
    data_parallel P module input (d :: ds) none =
      P.gather
        (P.parallel_apply
          ((P.replicate module (d :: ds)).take (P.scatter input (d :: ds)).length)
          (P.scatter input (d :: ds))) d ∧
    data_parallel P module input (d :: ds) none =
      data_parallel P module input (d :: ds) (some d) :=
  ⟨rfl, rfl⟩

/-- Claim C10: when replicate yields one replica per device and scatter yields
at most one shard per device, the replica list handed to parallel_apply is the
replicate output truncated to the number of shards and has exactly as many
entries as the shard list, even when scatter yields fewer shards than there
are devices. -/
theorem data_parallel_truncation_balances {M I O D : Type} (P : ParallelPrims M I O D)
    (module : M) (input : I) (d : D) (ds : List D) (output_device : Option D)
    (hrep : (P.replicate module (d :: ds)).length = (d :: ds).length)
    (hsc : (P.scatter input (d :: ds)).length ≤ (d :: ds).length) :
    ((P.replicate module (d :: ds)).take (P.scatter input (d :: ds)).length).length =
        (P.scatter input (d :: ds)).length ∧
    data_parallel P module input (d :: ds) output_device =
      P.gather
        (P.parallel_apply
          ((P.replicate module (d :: ds)).take (P.scatter input (d :: ds)).length)
          (P.scatter input (d :: ds)))
        (output_device.getD d) := by
  constructor
  · rw [List.length_take, hrep]
    exact Nat.min_eq_left hsc
  · rfl

/-- Claim C10 witness at the concrete pack truncPrims, whose scatter yields one
shard for the two-device list [1, 2]. -/
theorem data_parallel_truncation_balances_witness :
    ((truncPrims.replicate 0 [1, 2]).take (truncPrims.scatter 0 [1, 2]).length).length =
        (truncPrims.scatter 0 [1, 2]).length ∧
    data_parallel truncPrims 0 0 [1, 2] none =
      truncPrims.gather
        (truncPrims.parallel_apply
          ((truncPrims.replicate 0 [1, 2]).take (truncPrims.scatter 0 [1, 2]).length)
          (truncPrims.scatter 0 [1, 2])) 1 :=
  data_parallel_truncation_balances truncPrims 0 0 1 [2] none (by decide) (by decide)
